import Mathlib

/-!
Verification of the remote agent registry and dispatch layer of the
`bhumi_ai` agricultural multi-agent system, as implemented in
`agricultural_orchestrator/remote_agent_manager.py`,
`agricultural_orchestrator/agent.py` and
`agricultural_orchestrator/agent_executor.py`.

The embedding models:
* the `RemoteAgentManager` state (its `agent_connections` and `agent_cards`
  dictionaries) as association lists with Python dict semantics
  (insertion order kept, assignment to an existing key replaces in place);
* the network as oracle functions passed explicitly: card resolution and
  client construction during discovery become `Option`-valued oracles
  (`none` models the exception path of the `try` block), and message
  transport becomes a function returning a `SendOutcome`;
* Python exceptions of `send_to_agent` as `Except String String`
  (`Except.error` is the raised `ValueError`, `Except.ok` a returned string);
* Python's `str.strip()` as `pyStrip` (drop leading and trailing
  whitespace) and Python's substring operator `in` as `pyIn`.
-/

/-- A skill entry of an agent card (`a2a.types.AgentSkill`): only the fields
this layer reads. -/
structure Skill where
  name : String
  description : String
deriving Repr, DecidableEq

/-- An agent card (`a2a.types.AgentCard`): the descriptor fetched by
`A2ACardResolver.get_agent_card`, restricted to the fields the
registry/dispatch layer reads. -/
structure AgentCard where
  name : String
  description : String
  url : String
  skills : List Skill
deriving Repr, DecidableEq

/-- An `a2a.client.A2AClient` handle as constructed in `discover_agents`:
it stores the card and the base url it was built from; its transport
behaviour lives in the `A2ATransport` oracle. -/
structure A2AClient where
  agent_card : AgentCard
  url : String
deriving Repr, DecidableEq

/-- The state of `RemoteAgentManager`: the two dictionaries populated by
`discover_agents` (the `httpx` handle carries no registry state and is
not modelled). -/
structure RemoteAgentManager where
  agent_connections : List (String × A2AClient)
  agent_cards : List (String × AgentCard)
deriving Repr, DecidableEq

/-- A freshly constructed `RemoteAgentManager()`: both dictionaries empty. -/
def initManager : RemoteAgentManager :=
  { agent_connections := [], agent_cards := [] }

/-- Python dict lookup `d.get(k)` / `k in d` on an association list,
comparing keys with string equality. -/
def pyLookup {α : Type} (k : String) : List (String × α) → Option α
  | [] => none
  | (k0, v0) :: rest => if k0 = k then some v0 else pyLookup k rest

/-- Python dict assignment `d[k] = v`: replace in place when the key is
present, append otherwise. -/
def dictInsert {α : Type} (k : String) (v : α) : List (String × α) → List (String × α)
  | [] => [(k, v)]
  | (k0, v0) :: rest => if k0 = k then (k, v) :: rest else (k0, v0) :: dictInsert k v rest

/-- Whether `needle` is a leading segment of `hay` (helper for `pyIn`). -/
def startsWithL : List Char → List Char → Bool
  | [], _ => true
  | _ :: _, [] => false
  | c :: cs, d :: ds => c = d && startsWithL cs ds

/-- Whether `needle` occurs contiguously anywhere in the second list. -/
def containsSub (needle : List Char) : List Char → Bool
  | [] => startsWithL needle []
  | c :: t => startsWithL needle (c :: t) || containsSub needle t

/-- Python's substring test `needle in hay`. -/
def pyIn (needle hay : String) : Bool := containsSub needle.data hay.data

/-- The whitespace characters stripped by Python's `str.strip()`
(ASCII subset). -/
def isPySpaceChar (c : Char) : Bool :=
  c = ' ' || c = '\t' || c = '\n' || c = '\r' || c = '\x0b' || c = '\x0c'

/-- Python `str.strip()` on a character list: drop leading whitespace, then
trailing whitespace. -/
def pyStripL (l : List Char) : List Char :=
  ((l.dropWhile isPySpaceChar).reverse.dropWhile isPySpaceChar).reverse

/-- Python `str.strip()` on strings. -/
def pyStrip (s : String) : String := ⟨pyStripL s.data⟩

/-- One entry of `artifact["parts"]` in the serialized response envelope
(`model_dump_json(exclude_none=True)`): an absent `text` key is `none`. -/
structure ResponsePart where
  text : Option String
deriving Repr, DecidableEq

/-- One entry of `result["artifacts"]` in the serialized response envelope. -/
structure ResponseArtifact where
  parts : List ResponsePart
deriving Repr, DecidableEq

/-- The outcome of `await client.send_message(...)` together with the
subsequent envelope checks of `send_to_agent`:
* `exn detail` — an exception escaped the awaited call (timeout, connection
  refused, protocol error); `detail` is `str(e)`;
* `nonSuccess` — the response's `root` is not a `SendMessageSuccessResponse`;
* `resultNotTask` — the success response's `result` is not a `Task`;
* `success artifacts` — a success response whose serialized task carries the
  given artifacts. -/
inductive SendOutcome where
  | exn (detail : String)
  | nonSuccess
  | resultNotTask
  | success (artifacts : List ResponseArtifact)
deriving Repr, DecidableEq

/-- The network transport oracle: what sending this message through this
client returns. -/
def A2ATransport : Type := A2AClient → String → SendOutcome

/-- The outcome of one iteration of the discovery `try` block for one
configured agent: `rc name url` models `resolver.get_agent_card()` (`none`
is the exception path), `bc url card` models `A2AClient(...)` construction
(`none` an exception during construction). The iteration registers the
agent only when both steps succeed. -/
def attemptResult (rc : String → String → Option AgentCard)
    (bc : String → AgentCard → Option A2AClient)
    (cfg : String × String) : Option (AgentCard × A2AClient) :=
  match rc cfg.1 cfg.2 with
  | none => none
  | some card =>
    match bc cfg.2 card with
    | none => none
    | some client => some (card, client)

/-- The `for agent_name, agent_url in agent_configs.items()` loop of
`discover_agents`: each failed attempt is skipped (`continue`), each
successful attempt stores the client and the card and bumps
`success_count`. -/
def discover_loop (rc : String → String → Option AgentCard)
    (bc : String → AgentCard → Option A2AClient)
    (mgr : RemoteAgentManager) (count : Nat) :
    List (String × String) → RemoteAgentManager × Nat
  | [] => (mgr, count)
  | cfg :: rest =>
    match attemptResult rc bc cfg with
    | none => discover_loop rc bc mgr count rest
    | some (card, client) =>
      discover_loop rc bc
        { agent_connections := dictInsert cfg.1 client mgr.agent_connections,
          agent_cards := dictInsert cfg.1 card mgr.agent_cards }
        (count + 1) rest

/-- `RemoteAgentManager.discover_agents`: run the loop with
`success_count = 0` and return the updated manager together with
`success_count > 0`. -/
def discover_agents (rc : String → String → Option AgentCard)
    (bc : String → AgentCard → Option A2AClient)
    (mgr : RemoteAgentManager) (configs : List (String × String)) :
    RemoteAgentManager × Bool :=
  let r := discover_loop rc bc mgr 0 configs
  (r.1, decide (r.2 > 0))

/-- The nested extraction loop of `send_to_agent` (lines 113-126): append
`part["text"] + " "` for every truthy `text` field, `strip()` the result,
and substitute the placeholder when nothing remains. -/
def extract_text (artifacts : List ResponseArtifact) (agent_name : String) : String :=
  let raw := artifacts.foldl
    (fun acc a => a.parts.foldl
      (fun acc2 p =>
        match p.text with
        | some t => if t ≠ "" then acc2 ++ t ++ " " else acc2
        | none => acc2)
      acc)
    ""
  let stripped := pyStrip raw
  if stripped = "" then "Received response from " ++ agent_name ++ " but no text content found"
  else stripped

/-- `RemoteAgentManager.send_to_agent`. `Except.error` models the raised
`ValueError` for an unregistered name; every other path returns a string
(`Except.ok`), the `try`/`except` turning any transport exception into an
error string. The fresh uuid message id does not influence the returned
value and is not modelled. -/
def send_to_agent (mgr : RemoteAgentManager) (transport : A2ATransport)
    (agent_name message : String) : Except String String :=
  match pyLookup agent_name mgr.agent_connections with
  | none => Except.error ("Agent " ++ agent_name ++ " not found")
  | some client =>
    match transport client message with
    | SendOutcome.exn detail =>
      Except.ok ("Error communicating with " ++ agent_name ++ ": " ++ detail)
    | SendOutcome.nonSuccess =>
      Except.ok ("Error: " ++ agent_name ++ " could not process the request")
    | SendOutcome.resultNotTask =>
      Except.ok ("Error: " ++ agent_name ++ " response format invalid")
    | SendOutcome.success artifacts =>
      Except.ok (extract_text artifacts agent_name)

/-- `RemoteAgentManager.broadcast_query`: the empty-registry early return,
then one `send_to_agent` task per registered agent, any exception of an
awaited task converted to `"Error: " + str(e)`. -/
def broadcast_query (mgr : RemoteAgentManager) (transport : A2ATransport)
    (message : String) : List (String × String) :=
  if mgr.agent_connections.isEmpty then [("error", "No agents available")]
  else mgr.agent_connections.map
    (fun p =>
      (p.1,
        match send_to_agent mgr transport p.1 message with
        | Except.ok r => r
        | Except.error e => "Error: " ++ e))

/-- `RemoteAgentManager.get_available_agents`: `list(self.agent_connections.keys())`. -/
def get_available_agents (mgr : RemoteAgentManager) : List String :=
  mgr.agent_connections.map Prod.fst

/-- `RemoteAgentManager.get_agent_card`: `self.agent_cards.get(agent_name)`. -/
def get_agent_card (mgr : RemoteAgentManager) (agent_name : String) : Option AgentCard :=
  pyLookup agent_name mgr.agent_cards

/-- `RemoteAgentManager._get_port_from_agent_name`: the hardcoded
substring-to-port mapping. -/
def get_port_from_agent_name (agent_name : String) : String :=
  if pyIn "Market" agent_name then "10006"
  else if pyIn "Weather" agent_name then "10005"
  else if pyIn "Schemes" agent_name || pyIn "Agricultural Schemes" agent_name then "10004"
  else "10000"

/-- The dictionary returned by `RemoteAgentManager.get_agent_info`. -/
structure AgentInfo where
  name : String
  description : String
  url : String
  skills : List String
deriving Repr, DecidableEq

/-- `RemoteAgentManager.get_agent_info`: `None` when the name is not in
`agent_cards`; otherwise the card's name and description, a url
reconstructed as `http://localhost:` plus the hardcoded port for the
name, and the card's skill names. -/
def get_agent_info (mgr : RemoteAgentManager) (agent_name : String) : Option AgentInfo :=
  match pyLookup agent_name mgr.agent_cards with
  | none => none
  | some card =>
    some
      { name := card.name
        description := card.description
        url := "http://localhost:" ++ get_port_from_agent_name agent_name
        skills := if card.skills ≠ [] then card.skills.map Skill.name else [] }

/-- The orchestrator state read by `AgriculturalOrchestrator.send_message_to_agent`:
its `RemoteAgentManager` and the cached `available_agents` list. -/
structure AgriculturalOrchestrator where
  remote_manager : RemoteAgentManager
  available_agents : List String
deriving Repr, DecidableEq

/-- `AgriculturalOrchestrator.send_message_to_agent`: the unknown-name
early return listing the available agents, then the `try`/`except` around
`send_to_agent` that converts any exception into
`"Error communicating with {agent_name}: {str(e)}"`. -/
def send_message_to_agent (orch : AgriculturalOrchestrator) (transport : A2ATransport)
    (agent_name message : String) : String :=
  if (orch.available_agents.contains agent_name) = false then
    "❌ Agent \x27" ++ agent_name ++ "\x27 is not available. Available agents: "
      ++ String.intercalate ", " orch.available_agents
  else
    match send_to_agent orch.remote_manager transport agent_name message with
    | Except.ok r => r
    | Except.error e => "Error communicating with " ++ agent_name ++ ": " ++ e

/-- A task as far as the executor's `cancel` signature is concerned. -/
structure A2ATask where
  id : String
deriving Repr, DecidableEq

/-- The request context handed to `AgriculturalOrchestratorExecutor.cancel`. -/
structure A2ARequestContext where
  current_task : Option A2ATask
deriving Repr, DecidableEq

/-- The error kinds a `ServerError` of the a2a server layer can carry
(the ones this code base touches). -/
inductive A2AErrorKind where
  | unsupportedOperation
  | internalError
deriving Repr, DecidableEq

/-- What a call to the executor's `cancel` can do: raise a `ServerError`,
or return normally with `Task | None`. -/
inductive CancelOutcome where
  | serverError (e : A2AErrorKind)
  | returns (t : Option A2ATask)
deriving Repr, DecidableEq

/-- `AgriculturalOrchestratorExecutor.cancel`: unconditionally
`raise ServerError(error=UnsupportedOperationError())`. -/
def executor_cancel (_request : A2ARequestContext) : CancelOutcome :=
  CancelOutcome.serverError A2AErrorKind.unsupportedOperation

/-- The text fragment a response part contributes: its `text` field when
present and truthy (Python's `if part.get("text")`), nothing when the
field is absent or the empty string. -/
def truthyText (p : ResponsePart) : Option String :=
  match p.text with
  | some t => if t ≠ "" then some t else none
  | none => none

/-- All truthy text fragments found under `result.artifacts[].parts[].text`,
in traversal order (the fragments the spec says are joined). -/
def truthyTexts (artifacts : List ResponseArtifact) : List String :=
  (artifacts.map (fun a => a.parts.filterMap truthyText)).flatten

/-- Modelled from the spec: "all such text fragments are concatenated with
a single space separator". Joining a list of fragments with one space
between consecutive fragments. -/
def joinWithSingleSpace : List String → String
  | [] => ""
  | [t] => t
  | t :: ts => t ++ " " ++ joinWithSingleSpace ts

/-- The raw concatenation the extraction loop builds: every fragment
followed by one space. -/
def spaceConcat : List String → String
  | [] => ""
  | t :: ts => t ++ " " ++ spaceConcat ts

/-- The body of the inner extraction loop, named: append the part's truthy
text and a space, when there is one. -/
def textAppendStep (acc2 : String) (p : ResponsePart) : String :=
  match truthyText p with
  | some t => acc2 ++ t ++ " "
  | none => acc2

/-- The reachable states of a `RemoteAgentManager` under a fixed resolution
environment: the freshly constructed manager, and any number of
`discover_agents` calls (the only operations that write the registry;
`send_to_agent`, `broadcast_query` and the getters only read it, and
`close` only touches the HTTP handle). -/
inductive ReachableManager (rc : String → String → Option AgentCard)
    (bc : String → AgentCard → Option A2AClient) : RemoteAgentManager → Prop where
  | init : ReachableManager rc bc initManager
  | step (m : RemoteAgentManager) (configs : List (String × String)) :
      ReachableManager rc bc m →
      ReachableManager rc bc (discover_agents rc bc m configs).1

/-! ### Concrete fixtures for witnesses and counterexamples -/

/-- A small agent card used in concrete evaluations. -/
def cardA : AgentCard :=
  { name := "A", description := "test agent", url := "http://localhost:9999", skills := [] }

/-- The client registered for `cardA`. -/
def clientA : A2AClient := { agent_card := cardA, url := "http://localhost:9999" }

/-- A manager whose registry holds exactly the agent `"A"`. -/
def mgrA : RemoteAgentManager :=
  { agent_connections := [("A", clientA)], agent_cards := [("A", cardA)] }

/-- A transport on which every send raises a connection error. -/
def transportExn : A2ATransport := fun _ _ => SendOutcome.exn "Connection refused"

/-- A transport whose response root is not a `SendMessageSuccessResponse`. -/
def transportNonSuccess : A2ATransport := fun _ _ => SendOutcome.nonSuccess

/-- A transport answering with a single text part. -/
def transportOnion : A2ATransport :=
  fun _ _ => SendOutcome.success [{ parts := [{ text := some "Onion price is ₹20/kg" }] }]

/-- A transport answering with two text parts. -/
def transportAB : A2ATransport :=
  fun _ _ => SendOutcome.success [{ parts := [{ text := some "A" }, { text := some "B" }] }]

/-- A transport answering with an envelope that has no text field anywhere. -/
def transportEmpty : A2ATransport :=
  fun _ _ => SendOutcome.success [{ parts := [{ text := none }, { text := none }] }]

/-- The weather agent card of the deployed configuration. -/
def cardWeather : AgentCard :=
  { name := "Weather Agent for Indian Farmers", description := "Weather forecasts",
    url := "http://localhost:10005", skills := [{ name := "forecast", description := "7 day forecast" }] }

/-- The client registered for `cardWeather`. -/
def clientWeather : A2AClient := { agent_card := cardWeather, url := "http://localhost:10005" }

/-- A manager whose registry holds exactly the weather agent. -/
def mgrWeather : RemoteAgentManager :=
  { agent_connections := [("Weather Agent for Indian Farmers", clientWeather)],
    agent_cards := [("Weather Agent for Indian Farmers", cardWeather)] }

/-- An orchestrator whose only available agent is the weather agent. -/
def orchWeather : AgriculturalOrchestrator :=
  { remote_manager := mgrWeather, available_agents := ["Weather Agent for Indian Farmers"] }

/-- A resolution oracle that fails exactly for the name `"Bad Agent"`. -/
def rcDemo : String → String → Option AgentCard :=
  fun name url =>
    if name = "Bad Agent" then none
    else some { name := name, description := "responds", url := url, skills := [] }

/-- A client construction oracle that always succeeds. -/
def bcDemo : String → AgentCard → Option A2AClient :=
  fun url card => some { agent_card := card, url := url }

/-- Three configured agents, of which the middle one fails resolution. -/
def configsDemo : List (String × String) :=
  [("Good Agent", "http://localhost:1111"),
   ("Bad Agent", "http://localhost:2222"),
   ("Other Agent", "http://localhost:3333")]

/-- A card whose advertised url is a remote host, used to exhibit the
url-reconstruction behaviour of `get_agent_info`. -/
def cardFoo : AgentCard :=
  { name := "Foo Agent", description := "Remote foo service",
    url := "http://remote.example:1234", skills := [] }

/-- A resolution oracle resolving exactly `"Foo Agent"` to `cardFoo`. -/
def rcFoo : String → String → Option AgentCard :=
  fun name _ => if name = "Foo Agent" then some cardFoo else none

/-- A client construction oracle that always succeeds. -/
def bcFoo : String → AgentCard → Option A2AClient :=
  fun url card => some { agent_card := card, url := url }

/-- The manager obtained by discovering `"Foo Agent"` from its remote url. -/
def mgrFoo : RemoteAgentManager :=
  (discover_agents rcFoo bcFoo initManager [("Foo Agent", "http://remote.example:1234")]).1

deriving instance DecidableEq for Except

/-! ### Association-list lemmas (Python dict semantics) -/

theorem pyLookup_dictInsert {α : Type} (k k' : String) (v : α) (l : List (String × α)) :
    pyLookup k (dictInsert k' v l) = if k' = k then some v else pyLookup k l := by
  induction l with
  | nil => simp [dictInsert, pyLookup]
  | cons hd tl ih =>
    by_cases h : hd.1 = k'
    · by_cases h2 : k' = k
      · simp [dictInsert, pyLookup, h, h2]
      · have h3 : ¬ hd.1 = k := fun hc => h2 (h.symm.trans hc)
        simp [dictInsert, pyLookup, h, h2, h3]
    · by_cases h2 : hd.1 = k
      · have h3 : ¬ k' = k := fun hc => h (h2.trans hc.symm)
        have h4 : ¬ k = k' := fun hc => h3 hc.symm
        simp [dictInsert, pyLookup, h, h2, h3, h4]
      · simp [dictInsert, pyLookup, h, h2, ih]

theorem dictInsert_of_lookup_none {α : Type} (k : String) (v : α) (l : List (String × α))
    (h : pyLookup k l = none) : dictInsert k v l = l ++ [(k, v)] := by
  induction l with
  | nil => simp [dictInsert]
  | cons hd tl ih =>
    by_cases hk : hd.1 = k
    · simp [pyLookup, hk] at h
    · simp only [pyLookup, hk, if_false] at h
      simp [dictInsert, hk, ih h]

theorem pyLookup_append {α : Type} (k : String) (l1 l2 : List (String × α)) :
    pyLookup k (l1 ++ l2)
      = match pyLookup k l1 with
        | some v => some v
        | none => pyLookup k l2 := by
  induction l1 with
  | nil => simp [pyLookup]
  | cons hd tl ih =>
    by_cases hk : hd.1 = k
    · simp [pyLookup, hk]
    · simp [pyLookup, hk, ih]

theorem pyLookup_eq_none_of_not_mem {α : Type} (k : String) (l : List (String × α))
    (h : k ∉ l.map Prod.fst) : pyLookup k l = none := by
  induction l with
  | nil => rfl
  | cons hd tl ih =>
    simp only [List.map_cons, List.mem_cons] at h
    push_neg at h
    have h1 : ¬ hd.1 = k := fun he => h.1 he.symm
    simp [pyLookup, h1, ih h.2]

theorem pyLookup_eq_some_of_mem_nodup {α : Type} (k : String) (v : α) (l : List (String × α))
    (hmem : (k, v) ∈ l) (hnd : (l.map Prod.fst).Nodup) : pyLookup k l = some v := by
  induction l with
  | nil => cases hmem
  | cons hd tl ih =>
    simp only [List.map_cons, List.nodup_cons] at hnd
    rcases List.mem_cons.mp hmem with h | h
    · rw [← h]
      simp [pyLookup]
    · have hne : hd.1 ≠ k := by
        intro he
        exact hnd.1 (he ▸ (List.mem_map.mpr ⟨(k, v), h, rfl⟩))
      simp [pyLookup, hne, ih h hnd.2]

/-! ### Python strip lemmas -/

theorem pyStripL_append_space (l : List Char) : pyStripL (l ++ [' ']) = pyStripL l := by
  unfold pyStripL
  rw [List.dropWhile_append]
  by_cases h : (l.dropWhile isPySpaceChar).isEmpty
  · simp [h, List.isEmpty_iff.mp h, isPySpaceChar]
  · simp [h, List.reverse_append, List.dropWhile_cons, isPySpaceChar]

theorem pyStrip_append_space (s : String) : pyStrip (s ++ " ") = pyStrip s := by
  have h : (s ++ " ").data = s.data ++ [' '] := String.data_append s " "
  simp only [pyStrip, h, pyStripL_append_space]

/-! ### Text-extraction lemmas -/

theorem spaceConcat_append (xs ys : List String) :
    spaceConcat (xs ++ ys) = spaceConcat xs ++ spaceConcat ys := by
  induction xs with
  | nil => simp [spaceConcat]
  | cons x xs ih => simp [spaceConcat, ih, String.append_assoc]

theorem spaceConcat_cons_eq (t : String) (ts : List String) :
    spaceConcat (t :: ts) = joinWithSingleSpace (t :: ts) ++ " " := by
  induction ts generalizing t with
  | nil => simp [spaceConcat, joinWithSingleSpace]
  | cons t2 ts ih =>
    show t ++ " " ++ spaceConcat (t2 :: ts) = (t ++ " " ++ joinWithSingleSpace (t2 :: ts)) ++ " "
    rw [ih t2]
    simp [String.append_assoc]

theorem pyStrip_spaceConcat (ts : List String) :
    pyStrip (spaceConcat ts) = pyStrip (joinWithSingleSpace ts) := by
  cases ts with
  | nil => rfl
  | cons t ts => rw [spaceConcat_cons_eq, pyStrip_append_space]

theorem textAppendStep_eq (acc2 : String) (p : ResponsePart) :
    (match p.text with
      | some t => if t ≠ "" then acc2 ++ t ++ " " else acc2
      | none => acc2)
    = textAppendStep acc2 p := by
  cases hp : p.text with
  | none => simp [textAppendStep, truthyText, hp]
  | some t =>
    by_cases ht : t = "" <;> simp [textAppendStep, truthyText, hp, ht]

theorem foldl_textAppendStep (parts : List ResponsePart) (acc : String) :
    parts.foldl textAppendStep acc = acc ++ spaceConcat (parts.filterMap truthyText) := by
  induction parts generalizing acc with
  | nil => simp [spaceConcat]
  | cons p ps ih =>
    rw [List.foldl_cons, List.filterMap_cons]
    cases hp : truthyText p with
    | none =>
      simp only [textAppendStep, hp]
      exact ih acc
    | some t =>
      simp only [textAppendStep, hp]
      rw [ih]
      simp [spaceConcat, String.append_assoc]

theorem parts_foldl_eq (parts : List ResponsePart) (acc : String) :
    parts.foldl
      (fun acc2 p =>
        match p.text with
        | some t => if t ≠ "" then acc2 ++ t ++ " " else acc2
        | none => acc2)
      acc
    = acc ++ spaceConcat (parts.filterMap truthyText) := by
  rw [List.foldl_ext _ textAppendStep acc (fun a b _ => textAppendStep_eq a b)]
  exact foldl_textAppendStep parts acc

theorem artifacts_foldl_eq (artifacts : List ResponseArtifact) (acc : String) :
    artifacts.foldl
      (fun acc a => a.parts.foldl
        (fun acc2 p =>
          match p.text with
          | some t => if t ≠ "" then acc2 ++ t ++ " " else acc2
          | none => acc2)
        acc)
      acc
    = acc ++ spaceConcat (truthyTexts artifacts) := by
  induction artifacts generalizing acc with
  | nil => simp [truthyTexts, spaceConcat]
  | cons a arts ih =>
    rw [List.foldl_cons, ih, parts_foldl_eq]
    have hflat : truthyTexts (a :: arts)
        = a.parts.filterMap truthyText ++ truthyTexts arts := by
      simp [truthyTexts]
    rw [hflat, spaceConcat_append, String.append_assoc]

theorem empty_string_append (s : String) : "" ++ s = s := String.empty_append s

theorem extract_text_eq (artifacts : List ResponseArtifact) (agent_name : String) :
    extract_text artifacts agent_name
      = if pyStrip (joinWithSingleSpace (truthyTexts artifacts)) = ""
        then "Received response from " ++ agent_name ++ " but no text content found"
        else pyStrip (joinWithSingleSpace (truthyTexts artifacts)) := by
  simp only [extract_text, artifacts_foldl_eq, empty_string_append, pyStrip_spaceConcat]

/-! ### Discovery lemmas -/

/-- Unrolling the discovery loop: starting from a manager whose registry is
disjoint from the (duplicate-free) configured names, the loop appends one
connection entry and one card entry per successful attempt, in
configuration order, and adds the number of successful attempts to
`success_count`. -/
theorem discover_loop_spec (rc : String → String → Option AgentCard)
    (bc : String → AgentCard → Option A2AClient) :
    ∀ (configs : List (String × String)) (mgr : RemoteAgentManager) (count : Nat),
      (configs.map Prod.fst).Nodup →
      (∀ cfg ∈ configs, pyLookup cfg.1 mgr.agent_connections = none) →
      (∀ cfg ∈ configs, pyLookup cfg.1 mgr.agent_cards = none) →
      (discover_loop rc bc mgr count configs).1.agent_connections
          = mgr.agent_connections
            ++ configs.filterMap
                (fun cfg => (attemptResult rc bc cfg).map (fun p => (cfg.1, p.2)))
        ∧ (discover_loop rc bc mgr count configs).1.agent_cards
          = mgr.agent_cards
            ++ configs.filterMap
                (fun cfg => (attemptResult rc bc cfg).map (fun p => (cfg.1, p.1)))
        ∧ (discover_loop rc bc mgr count configs).2
          = count + configs.countP (fun cfg => (attemptResult rc bc cfg).isSome) := by
  intro configs
  induction configs with
  | nil => intro mgr count _ _ _; simp [discover_loop]
  | cons cfg rest ih =>
    intro mgr count hnd hconn hcard
    simp only [List.map_cons, List.nodup_cons] at hnd
    cases hatt : attemptResult rc bc cfg with
    | none =>
      have h := ih mgr count hnd.2
        (fun c hc => hconn c (List.mem_cons_of_mem cfg hc))
        (fun c hc => hcard c (List.mem_cons_of_mem cfg hc))
      simp [discover_loop, hatt, List.filterMap_cons, List.countP_cons, h.1, h.2.1, h.2.2]
    | some pr =>
      obtain ⟨card, client⟩ := pr
      have hc0 : pyLookup cfg.1 mgr.agent_connections = none :=
        hconn cfg (List.mem_cons_self cfg rest)
      have hc1 : pyLookup cfg.1 mgr.agent_cards = none :=
        hcard cfg (List.mem_cons_self cfg rest)
      have hmgr2conn : dictInsert cfg.1 client mgr.agent_connections
          = mgr.agent_connections ++ [(cfg.1, client)] :=
        dictInsert_of_lookup_none cfg.1 client mgr.agent_connections hc0
      have hmgr2card : dictInsert cfg.1 card mgr.agent_cards
          = mgr.agent_cards ++ [(cfg.1, card)] :=
        dictInsert_of_lookup_none cfg.1 card mgr.agent_cards hc1
      have hconn2 : ∀ c ∈ rest,
          pyLookup c.1 (dictInsert cfg.1 client mgr.agent_connections) = none := by
        intro c hc
        rw [hmgr2conn, pyLookup_append]
        have hne : ¬ cfg.1 = c.1 := by
          intro he
          exact hnd.1 (he ▸ List.mem_map.mpr ⟨c, hc, rfl⟩)
        simp [hconn c (List.mem_cons_of_mem cfg hc), pyLookup, hne]
      have hcard2 : ∀ c ∈ rest,
          pyLookup c.1 (dictInsert cfg.1 card mgr.agent_cards) = none := by
        intro c hc
        rw [hmgr2card, pyLookup_append]
        have hne : ¬ cfg.1 = c.1 := by
          intro he
          exact hnd.1 (he ▸ List.mem_map.mpr ⟨c, hc, rfl⟩)
        simp [hcard c (List.mem_cons_of_mem cfg hc), pyLookup, hne]
      have h := ih
        { agent_connections := dictInsert cfg.1 client mgr.agent_connections,
          agent_cards := dictInsert cfg.1 card mgr.agent_cards }
        (count + 1) hnd.2 hconn2 hcard2
      refine ⟨?_, ?_, ?_⟩
      · rw [show (discover_loop rc bc mgr count (cfg :: rest))
            = discover_loop rc bc
                { agent_connections := dictInsert cfg.1 client mgr.agent_connections,
                  agent_cards := dictInsert cfg.1 card mgr.agent_cards }
                (count + 1) rest from by simp [discover_loop, hatt]]
        rw [h.1]
        simp [hmgr2conn, List.filterMap_cons, hatt, List.append_assoc]
      · rw [show (discover_loop rc bc mgr count (cfg :: rest))
            = discover_loop rc bc
                { agent_connections := dictInsert cfg.1 client mgr.agent_connections,
                  agent_cards := dictInsert cfg.1 card mgr.agent_cards }
                (count + 1) rest from by simp [discover_loop, hatt]]
        rw [h.2.1]
        simp [hmgr2card, List.filterMap_cons, hatt, List.append_assoc]
      · rw [show (discover_loop rc bc mgr count (cfg :: rest))
            = discover_loop rc bc
                { agent_connections := dictInsert cfg.1 client mgr.agent_connections,
                  agent_cards := dictInsert cfg.1 card mgr.agent_cards }
                (count + 1) rest from by simp [discover_loop, hatt]]
        rw [h.2.2]
        simp [List.countP_cons, hatt]
        omega

/-- The names of the per-success registry entries are the names of the
configurations whose attempt succeeded. -/
theorem filterMap_attempt_map_fst {γ : Type} (rc : String → String → Option AgentCard)
    (bc : String → AgentCard → Option A2AClient)
    (sel : AgentCard × A2AClient → γ) (configs : List (String × String)) :
    (configs.filterMap
        (fun cfg => (attemptResult rc bc cfg).map (fun p => (cfg.1, sel p)))).map Prod.fst
      = (configs.filter (fun cfg => (attemptResult rc bc cfg).isSome)).map Prod.fst := by
  induction configs with
  | nil => rfl
  | cons cfg rest ih =>
    cases hatt : attemptResult rc bc cfg with
    | none => simp [List.filterMap_cons, List.filter_cons, hatt, ih]
    | some pr => simp [List.filterMap_cons, List.filter_cons, hatt, ih]

/-- Inverting a successful discovery attempt: the card resolution and the
client construction both succeeded with the stored values. -/
theorem attemptResult_eq_some (rc : String → String → Option AgentCard)
    (bc : String → AgentCard → Option A2AClient) (cfg : String × String)
    (card : AgentCard) (client : A2AClient)
    (h : attemptResult rc bc cfg = some (card, client)) :
    rc cfg.1 cfg.2 = some card ∧ bc cfg.2 card = some client := by
  cases hrc : rc cfg.1 cfg.2 with
  | none => simp [attemptResult, hrc] at h
  | some c =>
    cases hbc : bc cfg.2 c with
    | none => simp [attemptResult, hrc, hbc] at h
    | some cl =>
      simp only [attemptResult, hrc, hbc] at h
      injection h with h2
      have hcard : c = card := congrArg Prod.fst h2
      have hclient : cl = client := congrArg Prod.snd h2
      rw [← hcard, ← hclient]
      exact ⟨rfl, hbc⟩

/-- Provenance of a connection entry: a name found in the registry after a
discovery loop either was there before, or some configuration for that
name had a fully successful attempt (card resolved and client built). -/
theorem discover_loop_lookup_conn (rc : String → String → Option AgentCard)
    (bc : String → AgentCard → Option A2AClient) :
    ∀ (configs : List (String × String)) (mgr : RemoteAgentManager) (count : Nat)
      (name : String) (cl : A2AClient),
      pyLookup name (discover_loop rc bc mgr count configs).1.agent_connections = some cl →
      (∃ cl0, pyLookup name mgr.agent_connections = some cl0)
        ∨ ∃ url card cl0, (name, url) ∈ configs
            ∧ rc name url = some card ∧ bc url card = some cl0 := by
  intro configs
  induction configs with
  | nil => intro mgr count name cl h; exact Or.inl ⟨cl, h⟩
  | cons cfg rest ih =>
    intro mgr count name cl h
    cases hatt : attemptResult rc bc cfg with
    | none =>
      rw [show discover_loop rc bc mgr count (cfg :: rest)
          = discover_loop rc bc mgr count rest from by simp [discover_loop, hatt]] at h
      rcases ih mgr count name cl h with h1 | ⟨url, card, cl0, hm, hrc, hbc⟩
      · exact Or.inl h1
      · exact Or.inr ⟨url, card, cl0, List.mem_cons_of_mem cfg hm, hrc, hbc⟩
    | some pr =>
      obtain ⟨card, client⟩ := pr
      rw [show discover_loop rc bc mgr count (cfg :: rest)
          = discover_loop rc bc
              { agent_connections := dictInsert cfg.1 client mgr.agent_connections,
                agent_cards := dictInsert cfg.1 card mgr.agent_cards }
              (count + 1) rest from by simp [discover_loop, hatt]] at h
      rcases ih _ (count + 1) name cl h with h1 | ⟨url, card0, cl0, hm, hrc, hbc⟩
      · obtain ⟨cl0, h1⟩ := h1
        rw [pyLookup_dictInsert] at h1
        by_cases he : cfg.1 = name
        · obtain ⟨hrc2, hbc2⟩ := attemptResult_eq_some rc bc cfg card client hatt
          refine Or.inr ⟨cfg.2, card, client, ?_, ?_, hbc2⟩
          · rw [← he]
            exact List.mem_cons_self cfg rest
          · rw [← he]
            exact hrc2
        · rw [if_neg he] at h1
          exact Or.inl ⟨cl0, h1⟩
      · exact Or.inr ⟨url, card0, cl0, List.mem_cons_of_mem cfg hm, hrc, hbc⟩

/-- Provenance of a card entry, symmetric to `discover_loop_lookup_conn`. -/
theorem discover_loop_lookup_card (rc : String → String → Option AgentCard)
    (bc : String → AgentCard → Option A2AClient) :
    ∀ (configs : List (String × String)) (mgr : RemoteAgentManager) (count : Nat)
      (name : String) (cd : AgentCard),
      pyLookup name (discover_loop rc bc mgr count configs).1.agent_cards = some cd →
      (∃ cd0, pyLookup name mgr.agent_cards = some cd0)
        ∨ ∃ url card cl0, (name, url) ∈ configs
            ∧ rc name url = some card ∧ bc url card = some cl0 := by
  intro configs
  induction configs with
  | nil => intro mgr count name cd h; exact Or.inl ⟨cd, h⟩
  | cons cfg rest ih =>
    intro mgr count name cd h
    cases hatt : attemptResult rc bc cfg with
    | none =>
      rw [show discover_loop rc bc mgr count (cfg :: rest)
          = discover_loop rc bc mgr count rest from by simp [discover_loop, hatt]] at h
      rcases ih mgr count name cd h with h1 | ⟨url, card, cl0, hm, hrc, hbc⟩
      · exact Or.inl h1
      · exact Or.inr ⟨url, card, cl0, List.mem_cons_of_mem cfg hm, hrc, hbc⟩
    | some pr =>
      obtain ⟨card, client⟩ := pr
      rw [show discover_loop rc bc mgr count (cfg :: rest)
          = discover_loop rc bc
              { agent_connections := dictInsert cfg.1 client mgr.agent_connections,
                agent_cards := dictInsert cfg.1 card mgr.agent_cards }
              (count + 1) rest from by simp [discover_loop, hatt]] at h
      rcases ih _ (count + 1) name cd h with h1 | ⟨url, card0, cl0, hm, hrc, hbc⟩
      · obtain ⟨cd0, h1⟩ := h1
        rw [pyLookup_dictInsert] at h1
        by_cases he : cfg.1 = name
        · obtain ⟨hrc2, hbc2⟩ := attemptResult_eq_some rc bc cfg card client hatt
          refine Or.inr ⟨cfg.2, card, client, ?_, ?_, hbc2⟩
          · rw [← he]
            exact List.mem_cons_self cfg rest
          · rw [← he]
            exact hrc2
        · rw [if_neg he] at h1
          exact Or.inl ⟨cd0, h1⟩
      · exact Or.inr ⟨url, card0, cl0, List.mem_cons_of_mem cfg hm, hrc, hbc⟩

/-! ### Discovery from a fresh manager -/

/-- Discovery from a freshly constructed manager: the two registries hold
one entry per successful attempt, in configuration order, and the returned
flag is `success_count > 0`. -/
theorem discover_init_spec (rc : String → String → Option AgentCard)
    (bc : String → AgentCard → Option A2AClient) (configs : List (String × String))
    (hnd : (configs.map Prod.fst).Nodup) :
    (discover_agents rc bc initManager configs).1.agent_connections
        = configs.filterMap
            (fun cfg => (attemptResult rc bc cfg).map (fun p => (cfg.1, p.2)))
      ∧ (discover_agents rc bc initManager configs).1.agent_cards
        = configs.filterMap
            (fun cfg => (attemptResult rc bc cfg).map (fun p => (cfg.1, p.1)))
      ∧ (discover_agents rc bc initManager configs).2
        = decide (0 < configs.countP (fun cfg => (attemptResult rc bc cfg).isSome)) := by
  have h := discover_loop_spec rc bc configs initManager 0 hnd
    (fun c _ => rfl) (fun c _ => rfl)
  refine ⟨?_, ?_, ?_⟩
  · show (discover_loop rc bc initManager 0 configs).1.agent_connections = _
    rw [h.1]
    simp [initManager]
  · show (discover_loop rc bc initManager 0 configs).1.agent_cards = _
    rw [h.2.1]
    simp [initManager]
  · show decide (0 < (discover_loop rc bc initManager 0 configs).2) = _
    rw [h.2.2]
    simp

/-! ### Claims -/

/-- C2: `discover_agents` attempts each configured agent independently:
from a fresh manager, the returned flag is true exactly when at least one
attempt succeeded, the registry holds exactly the names whose attempt
succeeded (in configuration order), a false flag means an empty registry,
and a failed head configuration leaves the outcome for the remaining
configurations unchanged. -/
theorem C2_discover_agents_independent (rc : String → String → Option AgentCard)
    (bc : String → AgentCard → Option A2AClient) (configs : List (String × String))
    (hnd : (configs.map Prod.fst).Nodup) :
    ((discover_agents rc bc initManager configs).2 = true
        ↔ ∃ cfg ∈ configs, (attemptResult rc bc cfg).isSome)
    ∧ get_available_agents (discover_agents rc bc initManager configs).1
        = (configs.filter (fun cfg => (attemptResult rc bc cfg).isSome)).map Prod.fst
    ∧ ((discover_agents rc bc initManager configs).2 = false
        → (discover_agents rc bc initManager configs).1.agent_connections = []
          ∧ (discover_agents rc bc initManager configs).1.agent_cards = [])
    ∧ (∀ cfg rest, attemptResult rc bc cfg = none →
        discover_agents rc bc initManager (cfg :: rest)
          = discover_agents rc bc initManager rest) := by
  obtain ⟨hconn, hcard, hflag⟩ := discover_init_spec rc bc configs hnd
  refine ⟨?_, ?_, ?_, ?_⟩
  · rw [hflag]
    simp [List.countP_pos_iff]
  · unfold get_available_agents
    rw [hconn, filterMap_attempt_map_fst]
  · intro hfalse
    rw [hflag] at hfalse
    simp only [decide_eq_false_iff_not, Nat.not_lt, Nat.le_zero] at hfalse
    have hall : ∀ cfg ∈ configs, (attemptResult rc bc cfg).isSome = false := by
      intro cfg hc
      have := List.countP_eq_zero.mp hfalse cfg hc
      simpa using this
    constructor
    · rw [hconn]
      rw [List.filterMap_eq_nil_iff]
      intro cfg hc
      have h0 := hall cfg hc
      cases hatt : attemptResult rc bc cfg with
      | none => rfl
      | some pr =>
        rw [hatt] at h0
        simp at h0
    · rw [hcard]
      rw [List.filterMap_eq_nil_iff]
      intro cfg hc
      have h0 := hall cfg hc
      cases hatt : attemptResult rc bc cfg with
      | none => rfl
      | some pr =>
        rw [hatt] at h0
        simp at h0
  · intro cfg rest hfail
    simp [discover_agents, discover_loop, hfail]

/-- Witness for C2 on the three demo configurations: discovery reports
success and registers exactly the two resolving agents, skipping the
failing one. -/
theorem C2_witness :
    (discover_agents rcDemo bcDemo initManager configsDemo).2 = true
    ∧ get_available_agents (discover_agents rcDemo bcDemo initManager configsDemo).1
        = ["Good Agent", "Other Agent"] := by
  have h := C2_discover_agents_independent rcDemo bcDemo configsDemo (by decide)
  constructor
  · exact h.1.mpr ⟨("Good Agent", "http://localhost:1111"), by decide, by decide⟩
  · exact (h.2.1).trans (by decide)

/-- Counterexample to C7 as stated: after a successful discovery the
resolved descriptor's url is `http://remote.example:1234`, yet
`get_agent_info` reports `http://localhost:10000` — the url field is
reconstructed from the hardcoded name-to-port table, not taken from the
resolved descriptor. -/
theorem C7_counterexample :
    get_agent_card mgrFoo "Foo Agent" = some cardFoo
    ∧ (get_agent_info mgrFoo "Foo Agent").map AgentInfo.url = some "http://localhost:10000"
    ∧ cardFoo.url = "http://remote.example:1234"
    ∧ ¬ (get_agent_info mgrFoo "Foo Agent").map AgentInfo.url = some cardFoo.url := by
  refine ⟨?_, ?_, rfl, ?_⟩ <;> decide

/-- C7 (amended): after discovery from a fresh manager,
`get_available_agents` returns exactly the names that resolved;
`get_agent_info` returns, for a registered name, the resolved card's name
and description, the card's skill names, and a url reconstructed from the
hardcoded name-to-port table (not the descriptor's url); and `None` for an
unregistered name. -/
theorem C7_agent_info_after_discovery (rc : String → String → Option AgentCard)
    (bc : String → AgentCard → Option A2AClient) (configs : List (String × String))
    (hnd : (configs.map Prod.fst).Nodup) :
    get_available_agents (discover_agents rc bc initManager configs).1
        = (configs.filter (fun cfg => (attemptResult rc bc cfg).isSome)).map Prod.fst
    ∧ (∀ name url card client, (name, url) ∈ configs →
        attemptResult rc bc (name, url) = some (card, client) →
        get_agent_info (discover_agents rc bc initManager configs).1 name
          = some { name := card.name, description := card.description,
                   url := "http://localhost:" ++ get_port_from_agent_name name,
                   skills := card.skills.map Skill.name })
    ∧ (∀ name,
        name ∉ (configs.filter (fun cfg => (attemptResult rc bc cfg).isSome)).map Prod.fst →
        get_agent_info (discover_agents rc bc initManager configs).1 name = none) := by
  obtain ⟨hconn, hcard, hflag⟩ := discover_init_spec rc bc configs hnd
  refine ⟨?_, ?_, ?_⟩
  · unfold get_available_agents
    rw [hconn, filterMap_attempt_map_fst]
  · intro name url card client hmem hatt
    have hmem2 : (name, card) ∈ (discover_agents rc bc initManager configs).1.agent_cards := by
      rw [hcard]
      apply List.mem_filterMap.mpr
      refine ⟨(name, url), hmem, ?_⟩
      rw [hatt]
      rfl
    have hnd2 : ((discover_agents rc bc initManager configs).1.agent_cards.map Prod.fst).Nodup := by
      rw [hcard, filterMap_attempt_map_fst]
      exact ((List.filter_sublist configs).map Prod.fst).nodup hnd
    have hlook := pyLookup_eq_some_of_mem_nodup name card _ hmem2 hnd2
    unfold get_agent_info
    rw [hlook]
    by_cases hs : card.skills = []
    · simp [hs]
    · simp [hs]
  · intro name hnot
    unfold get_agent_info
    have hnone : pyLookup name (discover_agents rc bc initManager configs).1.agent_cards = none := by
      apply pyLookup_eq_none_of_not_mem
      rw [hcard, filterMap_attempt_map_fst]
      exact hnot
    rw [hnone]

/-- Witness for C7 (amended) on the demo configurations: the two resolving
agents are listed, the resolved one's info carries the fallback port
10000 url, and the failing one's info is the `None` sentinel. -/
theorem C7_witness :
    get_available_agents (discover_agents rcDemo bcDemo initManager configsDemo).1
        = ["Good Agent", "Other Agent"]
    ∧ get_agent_info (discover_agents rcDemo bcDemo initManager configsDemo).1 "Good Agent"
        = some { name := "Good Agent", description := "responds",
                 url := "http://localhost:10000", skills := [] }
    ∧ get_agent_info (discover_agents rcDemo bcDemo initManager configsDemo).1 "Bad Agent"
        = none := by
  have h := C7_agent_info_after_discovery rcDemo bcDemo configsDemo (by decide)
  refine ⟨h.1.trans (by decide), ?_, ?_⟩
  · exact (h.2.1 "Good Agent" "http://localhost:1111"
      { name := "Good Agent", description := "responds",
        url := "http://localhost:1111", skills := [] }
      { agent_card := { name := "Good Agent", description := "responds",
                        url := "http://localhost:1111", skills := [] },
        url := "http://localhost:1111" }
      (by decide) (by decide)).trans (by decide)
  · exact h.2.2 "Bad Agent" (by decide)

/-- C8: over every reachable state of the manager (freshly constructed,
then any number of `discover_agents` calls against a fixed resolution
environment), a name is present in the connection or card registry only
if its card resolution and its client construction both succeeded; no
operation registers a name whose attempt failed. -/
theorem C8_registry_entries_resolved (rc : String → String → Option AgentCard)
    (bc : String → AgentCard → Option A2AClient) (m : RemoteAgentManager)
    (hreach : ReachableManager rc bc m) :
    (∀ name client, pyLookup name m.agent_connections = some client →
        ∃ url card client0, rc name url = some card ∧ bc url card = some client0)
    ∧ (∀ name card, pyLookup name m.agent_cards = some card →
        ∃ url card0 client0, rc name url = some card0 ∧ bc url card0 = some client0) := by
  induction hreach with
  | init =>
    constructor
    · intro name client h
      simp [initManager, pyLookup] at h
    · intro name card h
      simp [initManager, pyLookup] at h
  | step m configs hr ih =>
    constructor
    · intro name client h
      rcases discover_loop_lookup_conn rc bc configs m 0 name client h with
        ⟨cl0, h1⟩ | ⟨url, card, cl0, _, hrc, hbc⟩
      · exact ih.1 name cl0 h1
      · exact ⟨url, card, cl0, hrc, hbc⟩
    · intro name card h
      rcases discover_loop_lookup_card rc bc configs m 0 name card h with
        ⟨cd0, h1⟩ | ⟨url, card0, cl0, _, hrc, hbc⟩
      · exact ih.2 name cd0 h1
      · exact ⟨url, card0, cl0, hrc, hbc⟩

/-- Witness for C8: in the state reached by one discovery over the demo
configurations, the registered name `"Good Agent"` indeed has a resolvable
card and a constructible client. -/
theorem C8_witness :
    ∃ url card client0, rcDemo "Good Agent" url = some card
      ∧ bcDemo url card = some client0 := by
  have hreach : ReachableManager rcDemo bcDemo
      (discover_agents rcDemo bcDemo initManager configsDemo).1 :=
    ReachableManager.step initManager configsDemo ReachableManager.init
  exact (C8_registry_entries_resolved rcDemo bcDemo _ hreach).1 "Good Agent"
    { agent_card := { name := "Good Agent", description := "responds",
                      url := "http://localhost:1111", skills := [] },
      url := "http://localhost:1111" }
    (by decide)

/-- Stripping the empty string gives the empty string. -/
theorem pyStrip_empty : pyStrip "" = "" := rfl

/-- Counterexample to C1 as stated: with the weather agent registered,
dispatching to the unknown name `"X"` through
`RemoteAgentManager.send_to_agent` raises `ValueError("Agent X not found")`
(the `Except.error` constructor models the raised exception) — it does not
return an error string, and the raised message does not list the available
agents. -/
theorem C1_counterexample :
    send_to_agent mgrWeather transportExn "X" "hello"
      = Except.error "Agent X not found" := by
  decide

/-- C1 (amended): for an agent name outside the orchestrator's
available-agents list, `send_message_to_agent` returns the error string
listing the currently available agents, for every transport (so without
any network call) and without raising; the underlying `send_to_agent`
instead raises `ValueError("Agent {name} not found")` for a name outside
the registry, again for every transport. -/
theorem C1_unknown_agent_dispatch (orch : AgriculturalOrchestrator)
    (transport : A2ATransport) (agent_name message : String)
    (h1 : orch.available_agents.contains agent_name = false)
    (h2 : pyLookup agent_name orch.remote_manager.agent_connections = none) :
    send_message_to_agent orch transport agent_name message
      = "❌ Agent \x27" ++ agent_name ++ "\x27 is not available. Available agents: "
        ++ String.intercalate ", " orch.available_agents
    ∧ send_to_agent orch.remote_manager transport agent_name message
      = Except.error ("Agent " ++ agent_name ++ " not found") := by
  constructor
  · simp only [send_message_to_agent, h1, if_pos]
  · simp only [send_to_agent, h2]

/-- Witness for C1 (amended) at the unknown name `"X"` against a registry
holding only the weather agent. -/
theorem C1_witness :
    send_message_to_agent orchWeather transportExn "X" "hello"
      = "❌ Agent \x27X\x27 is not available. Available agents: Weather Agent for Indian Farmers"
    ∧ send_to_agent mgrWeather transportExn "X" "hello"
      = Except.error "Agent X not found" := by
  have h := C1_unknown_agent_dispatch orchWeather transportExn "X" "hello"
    (by decide) (by decide)
  exact ⟨h.1.trans (by decide), h.2⟩

/-- C3: on a successful dispatch round trip whose envelope yields at least
one truthy text fragment, `send_to_agent` returns exactly the fragments
found under `result.artifacts[].parts[].text`, joined with a single space
separator and then stripped. -/
theorem C3_success_concatenation (mgr : RemoteAgentManager) (transport : A2ATransport)
    (agent_name message : String) (client : A2AClient)
    (artifacts : List ResponseArtifact)
    (hlook : pyLookup agent_name mgr.agent_connections = some client)
    (htr : transport client message = SendOutcome.success artifacts)
    (hne : pyStrip (joinWithSingleSpace (truthyTexts artifacts)) ≠ "") :
    send_to_agent mgr transport agent_name message
      = Except.ok (pyStrip (joinWithSingleSpace (truthyTexts artifacts))) := by
  simp only [send_to_agent, hlook, htr, extract_text_eq, if_neg hne]

/-- Witness for C3: the single-part envelope returns its text verbatim with
no trailing space, and the two-part envelope returns the single-space
join. -/
theorem C3_witness :
    send_to_agent mgrA transportOnion "A" "price query" = Except.ok "Onion price is ₹20/kg"
    ∧ send_to_agent mgrA transportAB "A" "query" = Except.ok "A B" := by
  constructor
  · exact (C3_success_concatenation mgrA transportOnion "A" "price query" clientA
      [{ parts := [{ text := some "Onion price is ₹20/kg" }] }]
      (by decide) rfl (by decide)).trans (by decide)
  · exact (C3_success_concatenation mgrA transportAB "A" "query" clientA
      [{ parts := [{ text := some "A" }, { text := some "B" }] }]
      (by decide) rfl (by decide)).trans (by decide)

/-- Counterexample to C4 as stated: a malformed envelope (non-success
response) yields `"Error: A could not process the request"`, which is not
of the form `"Error communicating with A: {detail}"` for any detail. -/
theorem C4_counterexample :
    ¬ ∃ detail : String,
      send_to_agent mgrA transportNonSuccess "A" "hello"
        = Except.ok ("Error communicating with A: " ++ detail) := by
  rintro ⟨d, h⟩
  have h0 : send_to_agent mgrA transportNonSuccess "A" "hello"
      = Except.ok "Error: A could not process the request" := by decide
  rw [h0] at h
  have h1 : ("Error: A could not process the request" : String)
      = "Error communicating with A: " ++ d := Except.ok.inj h
  have h2 : ("Error: A could not process the request" : String).data
      = ("Error communicating with A: " : String).data ++ d.data := by
    rw [h1, String.data_append]
  have h3 : (("Error: A could not process the request" : String).data).take 28
      = ("Error communicating with A: " : String).data := by
    rw [h2]
    have hlen : ("Error communicating with A: " : String).data.length = 28 := by decide
    rw [← hlen, List.take_left]
  exact absurd h3 (by decide)

/-- C4 (amended): a transport exception during dispatch is caught and
returned as `"Error communicating with {agent}: {detail}"`; a malformed
envelope is not an exception path: a non-success response returns
`"Error: {agent} could not process the request"` and a success response
whose result is not a Task returns `"Error: {agent} response format
invalid"`. All three are returned strings, never raised exceptions. -/
theorem C4_dispatch_failure_strings (mgr : RemoteAgentManager) (transport : A2ATransport)
    (agent_name message : String) (client : A2AClient)
    (hlook : pyLookup agent_name mgr.agent_connections = some client) :
    (∀ detail, transport client message = SendOutcome.exn detail →
        send_to_agent mgr transport agent_name message
          = Except.ok ("Error communicating with " ++ agent_name ++ ": " ++ detail))
    ∧ (transport client message = SendOutcome.nonSuccess →
        send_to_agent mgr transport agent_name message
          = Except.ok ("Error: " ++ agent_name ++ " could not process the request"))
    ∧ (transport client message = SendOutcome.resultNotTask →
        send_to_agent mgr transport agent_name message
          = Except.ok ("Error: " ++ agent_name ++ " response format invalid")) := by
  refine ⟨fun detail htr => ?_, fun htr => ?_, fun htr => ?_⟩ <;>
    simp only [send_to_agent, hlook, htr]

/-- Witness for C4 (amended): the non-success envelope on the registered
agent `"A"` returns its fixed error string. -/
theorem C4_witness :
    send_to_agent mgrA transportNonSuccess "A" "hello"
      = Except.ok "Error: A could not process the request" := by
  exact ((C4_dispatch_failure_strings mgrA transportNonSuccess "A" "hello" clientA
    (by decide)).2.1 rfl).trans (by decide)

/-- C5: every transport exception while sending is caught: `send_to_agent`
returns (never raises) an error string that contains the agent's name. -/
theorem C5_transport_exception_caught (mgr : RemoteAgentManager) (transport : A2ATransport)
    (agent_name message : String) (client : A2AClient) (detail : String)
    (hlook : pyLookup agent_name mgr.agent_connections = some client)
    (htr : transport client message = SendOutcome.exn detail) :
    send_to_agent mgr transport agent_name message
      = Except.ok ("Error communicating with " ++ agent_name ++ ": " ++ detail)
    ∧ ∃ pre suf, ("Error communicating with " ++ agent_name ++ ": " ++ detail)
        = pre ++ agent_name ++ suf := by
  constructor
  · simp only [send_to_agent, hlook, htr]
  · refine ⟨"Error communicating with ", ": " ++ detail, ?_⟩
    rw [String.append_assoc]

/-- Witness for C5: a connection error on the registered agent `"A"` comes
back as a returned string naming the agent. -/
theorem C5_witness :
    send_to_agent mgrA transportExn "A" "hello"
      = Except.ok "Error communicating with A: Connection refused" := by
  exact ((C5_transport_exception_caught mgrA transportExn "A" "hello" clientA
    "Connection refused" (by decide) rfl).1).trans (by decide)

/-- C6: a successful envelope with no `text` field anywhere under
`result.artifacts[].parts[]` makes `send_to_agent` return (not raise) the
placeholder string, which contains `"no text content found"`. -/
theorem C6_no_text_placeholder (mgr : RemoteAgentManager) (transport : A2ATransport)
    (agent_name message : String) (client : A2AClient)
    (artifacts : List ResponseArtifact)
    (hlook : pyLookup agent_name mgr.agent_connections = some client)
    (htr : transport client message = SendOutcome.success artifacts)
    (hnone : ∀ a ∈ artifacts, ∀ p ∈ a.parts, p.text = none) :
    send_to_agent mgr transport agent_name message
      = Except.ok ("Received response from " ++ agent_name ++ " but no text content found")
    ∧ ∃ pre, ("Received response from " ++ agent_name ++ " but no text content found")
        = pre ++ "no text content found" := by
  constructor
  · have htt : truthyTexts artifacts = [] := by
      unfold truthyTexts
      rw [List.flatten_eq_nil_iff]
      intro x hx
      obtain ⟨a, ha, rfl⟩ := List.mem_map.mp hx
      rw [List.filterMap_eq_nil_iff]
      intro p hp
      simp [truthyText, hnone a ha p hp]
    simp only [send_to_agent, hlook, htr, extract_text_eq, htt]
    simp [joinWithSingleSpace, pyStrip_empty]
  · refine ⟨"Received response from " ++ agent_name ++ " but ", ?_⟩
    have hsplit : (" but no text content found" : String)
        = " but " ++ "no text content found" := by decide
    calc ("Received response from " ++ agent_name) ++ " but no text content found"
        = ("Received response from " ++ agent_name)
            ++ (" but " ++ "no text content found") := by rw [hsplit]
      _ = (("Received response from " ++ agent_name) ++ " but ")
            ++ "no text content found" := (String.append_assoc _ _ _).symm

/-- Witness for C6: the all-`none` envelope on the registered agent `"A"`
returns the placeholder. -/
theorem C6_witness :
    send_to_agent mgrA transportEmpty "A" "query"
      = Except.ok "Received response from A but no text content found" := by
  exact ((C6_no_text_placeholder mgrA transportEmpty "A" "query" clientA
    [{ parts := [{ text := none }, { text := none }] }]
    (by decide) rfl (by decide)).1).trans (by decide)

/-- C9: the executor's `cancel` unconditionally raises a `ServerError`
carrying `UnsupportedOperationError`; it never returns (and so never
cancels or yields a task). -/
theorem C9_cancel_rejects (request : A2ARequestContext) :
    executor_cancel request = CancelOutcome.serverError A2AErrorKind.unsupportedOperation
    ∧ ∀ t : Option A2ATask, executor_cancel request ≠ CancelOutcome.returns t := by
  refine ⟨rfl, ?_⟩
  intro t h
  simp [executor_cancel] at h

/-- C10: `broadcast_query` returns the single-entry error dictionary when
the registry is empty, and otherwise a dictionary with exactly one string
entry per registered agent name (in registry order); both paths return
normally. -/
theorem C10_broadcast_query_shape (mgr : RemoteAgentManager) (transport : A2ATransport)
    (message : String) :
    (mgr.agent_connections = [] →
        broadcast_query mgr transport message = [("error", "No agents available")])
    ∧ (mgr.agent_connections ≠ [] →
        (broadcast_query mgr transport message).map Prod.fst
          = mgr.agent_connections.map Prod.fst) := by
  constructor
  · intro h
    simp [broadcast_query, h]
  · intro h
    simp [broadcast_query, List.isEmpty_iff, h]

/-- Witness for C10: one entry keyed by the registered name on a
one-agent registry, and the error dictionary on the fresh empty
registry. -/
theorem C10_witness :
    (broadcast_query mgrA transportNonSuccess "hi").map Prod.fst = ["A"]
    ∧ broadcast_query initManager transportNonSuccess "hi"
        = [("error", "No agents available")] := by
  have h1 := (C10_broadcast_query_shape mgrA transportNonSuccess "hi").2 (by decide)
  have h2 := (C10_broadcast_query_shape initManager transportNonSuccess "hi").1 rfl
  exact ⟨h1.trans (by decide), h2⟩

